import Mathlib

/-!
# Verification of the tokenclick valuation engine

A shallow embedding of the core valuation engine (`src/model.rs`, `src/valuation.rs`):
scenario catalogs, the discount-rate calculator, the investor-lift model, the
discounted-cash-flow present-value formula, the full scenario-matrix valuation, and
the summary statistics.  `f64` values are modelled as real numbers; `f64::powf` is
modelled by `Real.rpow`; the two `f64` infinities that seed the min/max folds are
modelled by working in `EReal` for those folds; fallible Rust functions returning
`Result<_, ModelError>` are modelled with `Except ModelError`.
-/

namespace TokVal

noncomputable section

/-- Payout timing scenarios representing different payment delays. -/
inductive PayoutScenario
  | Day60
  | Day90
  | Day120
deriving DecidableEq, Fintype

/-- All payout scenarios, in the order the source enumerates them. -/
def PayoutScenario.all : List PayoutScenario := [.Day60, .Day90, .Day120]

/-- Time period in years for the DCF calculation; assumes a 365-day year. -/
def PayoutScenario.years : PayoutScenario → ℝ
  | .Day60 => 60 / 365
  | .Day90 => 90 / 365
  | .Day120 => 120 / 365

/-- Days as an integer. -/
def PayoutScenario.days : PayoutScenario → ℕ
  | .Day60 => 60
  | .Day90 => 90
  | .Day120 => 120

/-- Market volatility scenarios affecting the risk premium. -/
inductive VolatilityScenario
  | Low
  | Typical
  | High
  | Extreme
deriving DecidableEq, Fintype

/-- All volatility scenarios, in the order the source enumerates them. -/
def VolatilityScenario.all : List VolatilityScenario := [.Low, .Typical, .High, .Extreme]

/-- The volatility premium for each scenario. -/
def VolatilityScenario.premium : VolatilityScenario → ℝ
  | .Low => 0.05
  | .Typical => 0.10
  | .High => 0.20
  | .Extreme => 0.30

/-- The volatility percentage for display. -/
def VolatilityScenario.percentage (v : VolatilityScenario) : ℝ :=
  v.premium * 100

/-- Investor participation lift scenarios, representing an activation factor. -/
inductive LiftScenario
  | Low
  | Medium
  | High
deriving DecidableEq, Fintype

/-- All lift scenarios, in the order the source enumerates them. -/
def LiftScenario.all : List LiftScenario := [.Low, .Medium, .High]

/-- The activation factor for each lift scenario. -/
def LiftScenario.activation_factor : LiftScenario → ℝ
  | .Low => 0.5
  | .Medium => 1.0
  | .High => 1.5

/-- Additional monthly audience based on investor drivers.  The Rust
`investor_count: u32` is modelled as `ℕ`, cast to a real as the source casts to `f64`. -/
def LiftScenario.additional_audience (l : LiftScenario) (investor_count : ℕ)
    (lift_per_investor : ℝ) : ℝ :=
  (investor_count : ℝ) * lift_per_investor * l.activation_factor

/-- Quarterly lift dollar amount (audience * RPM/1000 * 3 months). -/
def LiftScenario.quarterly_lift (l : LiftScenario) (investor_count : ℕ)
    (lift_per_investor rpm : ℝ) : ℝ :=
  l.additional_audience investor_count lift_per_investor * (rpm / 1000) * 3

/-- Errors that can occur during valuation calculations (`src/error.rs`). -/
inductive ModelError
  | InvalidInput (msg : String)
  | CalculationError (msg : String)
deriving DecidableEq

/-- Input parameters for valuation calculations. -/
structure ValuationInputs where
  raw_forecast : ℝ
  risk_free_rate : ℝ
  platform_risk_premium : ℝ
  platform_adjustment_factor : ℝ
  baseline_audience : ℝ
  rpm : ℝ
  investor_count : ℕ
  lift_per_investor : ℝ

/-- Components used to calculate the discount rate. -/
structure DiscountRateComponents where
  risk_free_rate : ℝ
  volatility_premium : ℝ
  platform_risk_premium : ℝ

/-- The total discount rate: the plain sum of the three components. -/
def DiscountRateComponents.total_rate (c : DiscountRateComponents) : ℝ :=
  c.risk_free_rate + c.volatility_premium + c.platform_risk_premium

/-- Result of a single valuation calculation: one row of the result set. -/
structure ValuationResult where
  present_value : ℝ
  payout_scenario : PayoutScenario
  volatility_scenario : VolatilityScenario
  lift_scenario : Option LiftScenario

/-- Summary statistics for the executive summary.  The min/max folds are seeded
with `f64::INFINITY` / `f64::NEG_INFINITY` in the source, so those two fields live
in `EReal`. -/
structure SummaryStatistics where
  min_valuation : EReal
  max_valuation : EReal
  central_estimate : ℝ
  best_volatility : VolatilityScenario
  worst_volatility : VolatilityScenario
  volatility_impact : ℝ
  lift_impact : ℝ
  payout_impact : ℝ
  adjusted_baseline : ℝ

/-- Assumptions for the lift model. -/
structure LiftAssumptions where
  baseline_audience : ℝ
  rpm : ℝ
  investor_count : ℕ
  lift_per_investor : ℝ

/-- Comprehensive data structure containing all report data.  The per-volatility
`HashMap` of discount rates, populated with exactly one entry per scenario, is
modelled as a total function on the four-element scenario type. -/
structure ReportData where
  inputs : ValuationInputs
  all_valuations : List ValuationResult
  discount_rates : VolatilityScenario → DiscountRateComponents
  summary : SummaryStatistics
  lift_assumptions : LiftAssumptions

/-- Adjusted baseline revenue after the platform adjustment. -/
def calculate_adjusted_baseline (raw_forecast adjustment_factor : ℝ) : ℝ :=
  raw_forecast * (1 + adjustment_factor)

/-- Discount rate components for a given volatility scenario. -/
def calculate_discount_rate (inputs : ValuationInputs)
    (volatility_scenario : VolatilityScenario) : DiscountRateComponents :=
  { risk_free_rate := inputs.risk_free_rate
    volatility_premium := volatility_scenario.premium
    platform_risk_premium := inputs.platform_risk_premium }

/-- Present value by the discounted cash flow formula PV = CashFlow / (1 + Rate)^Time. -/
def calculate_present_value (cash_flow discount_rate time_years : ℝ) :
    Except ModelError ℝ :=
  if discount_rate < -1 then
    .error (.CalculationError
      "Discount rate would result in division by zero or negative denominator")
  else
    let denominator := (1 + discount_rate) ^ time_years
    if denominator = 0 then
      .error (.CalculationError
        "Present value calculation resulted in division by zero")
    else
      .ok (cash_flow / denominator)

/-- Summary statistics for the executive summary, derived from the unified result
vector.  The `find_value` closure mirrors the linear search of the source. -/
def calculate_summary_statistics (all_valuations : List ValuationResult)
    (adjusted_baseline : ℝ) : Except ModelError SummaryStatistics :=
  let all_values := all_valuations.map fun v => v.present_value
  let min_valuation := all_values.foldl (fun (acc : EReal) (x : ℝ) => min acc (x : EReal)) ⊤
  let max_valuation := all_values.foldl (fun (acc : EReal) (x : ℝ) => max acc (x : EReal)) ⊥
  let find_value := fun (payout : PayoutScenario) (vol : VolatilityScenario)
      (lift : Option LiftScenario) =>
    match all_valuations.find? (fun v =>
        decide (v.payout_scenario = payout ∧ v.volatility_scenario = vol ∧
          v.lift_scenario = lift)) with
    | some v => Except.ok v.present_value
    | none => Except.error (.CalculationError "Could not find value for scenario combo")
  do
  let central_estimate ← find_value .Day90 .Typical (some .Medium)
  let low_vol_value ← find_value .Day90 .Low (some .Medium)
  let extreme_vol_value ← find_value .Day90 .Extreme (some .Medium)
  let volatility_impact := ((low_vol_value - extreme_vol_value) / low_vol_value) * 100
  let low_lift_value ← find_value .Day90 .Typical (some .Low)
  let high_lift_value ← find_value .Day90 .Typical (some .High)
  let lift_impact := ((high_lift_value - low_lift_value) / low_lift_value) * 100
  let day60_value ← find_value .Day60 .Typical (some .Medium)
  let day120_value ← find_value .Day120 .Typical (some .Medium)
  let payout_impact := ((day60_value - day120_value) / day60_value) * 100
  pure
    { min_valuation := min_valuation
      max_valuation := max_valuation
      central_estimate := central_estimate
      best_volatility := .Low
      worst_volatility := .Extreme
      volatility_impact := volatility_impact
      lift_impact := lift_impact
      payout_impact := payout_impact
      adjusted_baseline := adjusted_baseline }

/-- Valuations for all scenario combinations, with comprehensive report data.
The source's nested `for` loops pushing into one vector (with `?` early return)
are modelled as a monadic `mapM` over the flattened index list in the same
iteration order. -/
def calculate_full_valuation (inputs : ValuationInputs) : Except ModelError ReportData :=
  if inputs.raw_forecast ≤ 0 then
    .error (.InvalidInput "Raw forecast must be positive")
  else if inputs.baseline_audience ≤ 0 then
    .error (.InvalidInput "Baseline audience must be positive")
  else if inputs.rpm ≤ 0 then
    .error (.InvalidInput "RPM must be positive")
  else
    let adjusted_baseline :=
      calculate_adjusted_baseline inputs.raw_forecast inputs.platform_adjustment_factor
    let discount_rates : VolatilityScenario → DiscountRateComponents :=
      fun volatility => calculate_discount_rate inputs volatility
    let lift_assumptions : LiftAssumptions :=
      { baseline_audience := inputs.baseline_audience
        rpm := inputs.rpm
        investor_count := inputs.investor_count
        lift_per_investor := inputs.lift_per_investor }
    do
    let baseline_rows ←
      (PayoutScenario.all.flatMap fun payout =>
          VolatilityScenario.all.map fun volatility => (payout, volatility)).mapM
        fun pv => do
          let present_value ← calculate_present_value adjusted_baseline
            (discount_rates pv.2).total_rate pv.1.years
          pure { present_value := present_value
                 payout_scenario := pv.1
                 volatility_scenario := pv.2
                 lift_scenario := none : ValuationResult }
    let lifted_rows ←
      (LiftScenario.all.flatMap fun lift =>
          PayoutScenario.all.flatMap fun payout =>
            VolatilityScenario.all.map fun volatility => (lift, payout, volatility)).mapM
        fun lpv => do
          let lift_amount := lpv.1.quarterly_lift lift_assumptions.investor_count
            lift_assumptions.lift_per_investor lift_assumptions.rpm
          let lifted_revenue := adjusted_baseline + lift_amount
          let present_value ← calculate_present_value lifted_revenue
            (discount_rates lpv.2.2).total_rate lpv.2.1.years
          pure { present_value := present_value
                 payout_scenario := lpv.2.1
                 volatility_scenario := lpv.2.2
                 lift_scenario := some lpv.1 : ValuationResult }
    let all_valuations := baseline_rows ++ lifted_rows
    let summary ← calculate_summary_statistics all_valuations adjusted_baseline
    pure
      { inputs := inputs
        all_valuations := all_valuations
        discount_rates := discount_rates
        summary := summary
        lift_assumptions := lift_assumptions }

/-! ## Closed-form description of a successful run -/

/-- The baseline (no-lift) row produced for a payout/volatility pair. -/
def baselineRow (i : ValuationInputs) (p : PayoutScenario) (v : VolatilityScenario) :
    ValuationResult :=
  { present_value :=
      calculate_adjusted_baseline i.raw_forecast i.platform_adjustment_factor /
        (1 + (calculate_discount_rate i v).total_rate) ^ p.years
    payout_scenario := p
    volatility_scenario := v
    lift_scenario := none }

/-- The lifted row produced for a lift/payout/volatility triple. -/
def liftedRow (i : ValuationInputs) (l : LiftScenario) (p : PayoutScenario)
    (v : VolatilityScenario) : ValuationResult :=
  { present_value :=
      (calculate_adjusted_baseline i.raw_forecast i.platform_adjustment_factor +
          l.quarterly_lift i.investor_count i.lift_per_investor i.rpm) /
        (1 + (calculate_discount_rate i v).total_rate) ^ p.years
    payout_scenario := p
    volatility_scenario := v
    lift_scenario := some l }

/-- The full 48-row result list of a successful run, in production order. -/
def valuationRows (i : ValuationInputs) : List ValuationResult :=
  ((PayoutScenario.all.flatMap fun p =>
      VolatilityScenario.all.map fun v => (p, v)).map fun pv =>
    baselineRow i pv.1 pv.2) ++
  ((LiftScenario.all.flatMap fun l =>
      PayoutScenario.all.flatMap fun p =>
        VolatilityScenario.all.map fun v => (l, p, v)).map fun lpv =>
    liftedRow i lpv.1 lpv.2.1 lpv.2.2)

/-- The present values of a successful run, in production order. -/
def pvValues (i : ValuationInputs) : List ℝ :=
  (valuationRows i).map fun v => v.present_value

/-- The summary statistics of a successful run, in closed form. -/
def summaryOf (i : ValuationInputs) : SummaryStatistics :=
  { min_valuation := (pvValues i).foldl (fun (acc : EReal) (x : ℝ) => min acc (x : EReal)) ⊤
    max_valuation := (pvValues i).foldl (fun (acc : EReal) (x : ℝ) => max acc (x : EReal)) ⊥
    central_estimate := (liftedRow i .Medium .Day90 .Typical).present_value
    best_volatility := .Low
    worst_volatility := .Extreme
    volatility_impact :=
      (((liftedRow i .Medium .Day90 .Low).present_value -
          (liftedRow i .Medium .Day90 .Extreme).present_value) /
        (liftedRow i .Medium .Day90 .Low).present_value) * 100
    lift_impact :=
      (((liftedRow i .High .Day90 .Typical).present_value -
          (liftedRow i .Low .Day90 .Typical).present_value) /
        (liftedRow i .Low .Day90 .Typical).present_value) * 100
    payout_impact :=
      (((liftedRow i .Medium .Day60 .Typical).present_value -
          (liftedRow i .Medium .Day120 .Typical).present_value) /
        (liftedRow i .Medium .Day60 .Typical).present_value) * 100
    adjusted_baseline :=
      calculate_adjusted_baseline i.raw_forecast i.platform_adjustment_factor }

/-- The full report of a successful run, in closed form. -/
def reportOf (i : ValuationInputs) : ReportData :=
  { inputs := i
    all_valuations := valuationRows i
    discount_rates := fun volatility => calculate_discount_rate i volatility
    summary := summaryOf i
    lift_assumptions :=
      { baseline_audience := i.baseline_audience
        rpm := i.rpm
        investor_count := i.investor_count
        lift_per_investor := i.lift_per_investor } }

/-- The scenario-key triple of a result row. -/
def keyOf (v : ValuationResult) :
    PayoutScenario × VolatilityScenario × Option LiftScenario :=
  (v.payout_scenario, v.volatility_scenario, v.lift_scenario)

/-- The 48 scenario keys, in the exact order the engine produces its rows. -/
def scenarioKeys : List (PayoutScenario × VolatilityScenario × Option LiftScenario) :=
  [(.Day60, .Low, none), (.Day60, .Typical, none), (.Day60, .High, none),
   (.Day60, .Extreme, none),
   (.Day90, .Low, none), (.Day90, .Typical, none), (.Day90, .High, none),
   (.Day90, .Extreme, none),
   (.Day120, .Low, none), (.Day120, .Typical, none), (.Day120, .High, none),
   (.Day120, .Extreme, none),
   (.Day60, .Low, some .Low), (.Day60, .Typical, some .Low), (.Day60, .High, some .Low),
   (.Day60, .Extreme, some .Low),
   (.Day90, .Low, some .Low), (.Day90, .Typical, some .Low), (.Day90, .High, some .Low),
   (.Day90, .Extreme, some .Low),
   (.Day120, .Low, some .Low), (.Day120, .Typical, some .Low), (.Day120, .High, some .Low),
   (.Day120, .Extreme, some .Low),
   (.Day60, .Low, some .Medium), (.Day60, .Typical, some .Medium),
   (.Day60, .High, some .Medium), (.Day60, .Extreme, some .Medium),
   (.Day90, .Low, some .Medium), (.Day90, .Typical, some .Medium),
   (.Day90, .High, some .Medium), (.Day90, .Extreme, some .Medium),
   (.Day120, .Low, some .Medium), (.Day120, .Typical, some .Medium),
   (.Day120, .High, some .Medium), (.Day120, .Extreme, some .Medium),
   (.Day60, .Low, some .High), (.Day60, .Typical, some .High),
   (.Day60, .High, some .High), (.Day60, .Extreme, some .High),
   (.Day90, .Low, some .High), (.Day90, .Typical, some .High),
   (.Day90, .High, some .High), (.Day90, .Extreme, some .High),
   (.Day120, .Low, some .High), (.Day120, .Typical, some .High),
   (.Day120, .High, some .High), (.Day120, .Extreme, some .High)]

end

/-! ## Basic lemmas about the embedded functions -/

/-- Binding a successful `Except` computation just applies the continuation. -/
theorem ok_bind {ε α β : Type} (a : α) (f : α → Except ε β) :
    (Except.ok a : Except ε α) >>= f = f a := rfl

/-- Binding a failed `Except` computation propagates the error. -/
theorem error_bind {ε α β : Type} (e : ε) (f : α → Except ε β) :
    (Except.error e : Except ε α) >>= f = Except.error e := rfl

/-- `mapM` over `Except` succeeds pointwise when its body does. -/
theorem mapM_ok {α β : Type} {f : α → Except ModelError β} {g : α → β} :
    ∀ l : List α, (∀ a ∈ l, f a = .ok (g a)) → l.mapM f = .ok (l.map g) := by
  intro l
  induction l with
  | nil => intro _; rfl
  | cons a l ih =>
    intro h
    rw [List.mapM_cons, h a (List.mem_cons_self a l), ih fun b hb => h b (List.mem_cons_of_mem a hb)]
    rfl

/-- `mapM` over `Except` fails as soon as its body fails on the head. -/
theorem mapM_error_head {α β : Type} {f : α → Except ModelError β} {e : ModelError}
    (a : α) (l : List α) (h : f a = .error e) :
    (a :: l).mapM f = .error e := by
  rw [List.mapM_cons, h]
  rfl

/-- The total discount rate is the plain sum of the three components. -/
theorem total_rate_eq (i : ValuationInputs) (v : VolatilityScenario) :
    (calculate_discount_rate i v).total_rate =
      i.risk_free_rate + v.premium + i.platform_risk_premium := rfl

/-- Every volatility premium is at least the Low premium 0.05. -/
theorem premium_lower_bound (v : VolatilityScenario) : (0.05 : ℝ) ≤ v.premium := by
  cases v <;> norm_num [VolatilityScenario.premium]

/-- If the minimal (Low) rate exceeds -1 then every scenario rate does. -/
theorem rate_gt_neg_one (i : ValuationInputs) (v : VolatilityScenario)
    (h : -1 < i.risk_free_rate + 0.05 + i.platform_risk_premium) :
    -1 < (calculate_discount_rate i v).total_rate := by
  have hp := premium_lower_bound v
  rw [total_rate_eq]
  linarith

/-- With a rate above -1 the present-value computation succeeds with the DCF value. -/
theorem pv_of_rate_gt (cf r t : ℝ) (h : -1 < r) :
    calculate_present_value cf r t = .ok (cf / (1 + r) ^ t) := by
  have h0 : (0 : ℝ) < 1 + r := by linarith
  have hd : (1 + r) ^ t ≠ 0 := ne_of_gt (Real.rpow_pos_of_pos h0 t)
  have hnl : ¬r < -1 := not_lt.mpr h.le
  simp only [calculate_present_value, if_neg hnl, if_neg hd]

/-- A successful present-value computation returns exactly the DCF value. -/
theorem pv_ok_inv (cf r t v : ℝ) (h : calculate_present_value cf r t = .ok v) :
    v = cf / (1 + r) ^ t := by
  simp only [calculate_present_value] at h
  split at h
  · exact absurd h (by simp)
  · split at h
    · exact absurd h (by simp)
    · exact (Except.ok.injEq _ _ ▸ h).symm

/-- With a rate at or below -1 and a nonzero exponent the present-value
computation fails with a calculation error. -/
theorem pv_error_of_rate_le (cf r t : ℝ) (hr : r ≤ -1) (ht : t ≠ 0) :
    ∃ m, calculate_present_value cf r t = .error (.CalculationError m) := by
  rcases lt_or_eq_of_le hr with hlt | heq
  · exact ⟨"Discount rate would result in division by zero or negative denominator",
      by simp only [calculate_present_value, if_pos hlt]⟩
  · have hbase : (1 : ℝ) + r = 0 := by rw [heq]; ring
    have hd : (1 + r) ^ t = 0 := by rw [hbase, Real.zero_rpow ht]
    exact ⟨"Present value calculation resulted in division by zero",
      by simp [calculate_present_value, if_neg (show ¬r < -1 by linarith), hd]⟩

/-- On the 48 explicitly enumerated rows every fixed-key lookup of the summary
derivation succeeds, and the summary is the closed-form one. -/
theorem summary_stats_rows (i : ValuationInputs) :
    calculate_summary_statistics (valuationRows i)
      (calculate_adjusted_baseline i.raw_forecast i.platform_adjustment_factor) =
      .ok (summaryOf i) := rfl

/-- `pure` over `Except` is `Except.ok`. -/
theorem pure_eq_ok {ε α : Type} (a : α) : (pure a : Except ε α) = .ok a := rfl

/-- On validated inputs whose minimal total discount rate exceeds -1, the full
valuation succeeds and returns exactly the closed-form report. -/
theorem full_valuation_ok (i : ValuationInputs)
    (h1 : 0 < i.raw_forecast) (h2 : 0 < i.baseline_audience) (h3 : 0 < i.rpm)
    (h4 : -1 < i.risk_free_rate + 0.05 + i.platform_risk_premium) :
    calculate_full_valuation i = .ok (reportOf i) := by
  have pvL := fun cf t => pv_of_rate_gt cf _ t (rate_gt_neg_one i .Low h4)
  have pvT := fun cf t => pv_of_rate_gt cf _ t (rate_gt_neg_one i .Typical h4)
  have pvH := fun cf t => pv_of_rate_gt cf _ t (rate_gt_neg_one i .High h4)
  have pvX := fun cf t => pv_of_rate_gt cf _ t (rate_gt_neg_one i .Extreme h4)
  simp only [calculate_full_valuation, if_neg (not_le.mpr h1), if_neg (not_le.mpr h2),
    if_neg (not_le.mpr h3), PayoutScenario.all, VolatilityScenario.all, LiftScenario.all,
    List.flatMap_cons, List.flatMap_nil, List.map_cons, List.map_nil, List.append_nil,
    List.cons_append, List.nil_append, List.mapM_cons, List.mapM_nil,
    pvL, pvT, pvH, pvX, pure_eq_ok, ok_bind]
  rfl

/-- A nonpositive raw forecast fails fast with the input error naming that field. -/
theorem full_valuation_invalid_raw (i : ValuationInputs) (h : i.raw_forecast ≤ 0) :
    calculate_full_valuation i = .error (.InvalidInput "Raw forecast must be positive") := by
  simp only [calculate_full_valuation, if_pos h]

/-- A nonpositive baseline audience fails fast with the input error naming that field. -/
theorem full_valuation_invalid_audience (i : ValuationInputs)
    (h1 : 0 < i.raw_forecast) (h : i.baseline_audience ≤ 0) :
    calculate_full_valuation i =
      .error (.InvalidInput "Baseline audience must be positive") := by
  simp only [calculate_full_valuation, if_neg (not_le.mpr h1), if_pos h]

/-- A nonpositive RPM fails fast with the input error naming that field. -/
theorem full_valuation_invalid_rpm (i : ValuationInputs)
    (h1 : 0 < i.raw_forecast) (h2 : 0 < i.baseline_audience) (h : i.rpm ≤ 0) :
    calculate_full_valuation i = .error (.InvalidInput "RPM must be positive") := by
  simp only [calculate_full_valuation, if_neg (not_le.mpr h1), if_neg (not_le.mpr h2),
    if_pos h]

/-- When the minimal (Low-volatility) total rate is at or below -1, the run aborts
with a calculation error raised by the very first present-value evaluation. -/
theorem full_valuation_error_of_rate_le (i : ValuationInputs)
    (h1 : 0 < i.raw_forecast) (h2 : 0 < i.baseline_audience) (h3 : 0 < i.rpm)
    (h4 : i.risk_free_rate + 0.05 + i.platform_risk_premium ≤ -1) :
    ∃ m, calculate_full_valuation i = .error (.CalculationError m) := by
  have hrate : (calculate_discount_rate i .Low).total_rate ≤ -1 := by
    rw [total_rate_eq]
    have hp : VolatilityScenario.premium .Low = 0.05 := rfl
    rw [hp]; linarith
  obtain ⟨m, hm⟩ := pv_error_of_rate_le
    (calculate_adjusted_baseline i.raw_forecast i.platform_adjustment_factor)
    ((calculate_discount_rate i .Low).total_rate) (PayoutScenario.years .Day60) hrate
    (by norm_num [PayoutScenario.years])
  refine ⟨m, ?_⟩
  simp only [calculate_full_valuation, if_neg (not_le.mpr h1), if_neg (not_le.mpr h2),
    if_neg (not_le.mpr h3), PayoutScenario.all, VolatilityScenario.all,
    List.flatMap_cons, List.flatMap_nil, List.map_cons, List.map_nil, List.append_nil,
    List.cons_append, List.nil_append, List.mapM_cons, hm, error_bind]

/-- Complete characterization of a successful run: validation passes, the minimal
total rate exceeds -1, and the report is the closed-form one. -/
theorem calc_ok_iff (i : ValuationInputs) (rd : ReportData) :
    calculate_full_valuation i = .ok rd ↔
      (0 < i.raw_forecast ∧ 0 < i.baseline_audience ∧ 0 < i.rpm ∧
        -1 < i.risk_free_rate + 0.05 + i.platform_risk_premium ∧ rd = reportOf i) := by
  constructor
  · intro h
    rcases le_or_lt i.raw_forecast 0 with h1 | h1
    · rw [full_valuation_invalid_raw i h1] at h; simp at h
    rcases le_or_lt i.baseline_audience 0 with h2 | h2
    · rw [full_valuation_invalid_audience i h1 h2] at h; simp at h
    rcases le_or_lt i.rpm 0 with h3 | h3
    · rw [full_valuation_invalid_rpm i h1 h2 h3] at h; simp at h
    rcases le_or_lt (i.risk_free_rate + 0.05 + i.platform_risk_premium) (-1) with h4 | h4
    · obtain ⟨m, hm⟩ := full_valuation_error_of_rate_le i h1 h2 h3 h4
      rw [hm] at h; simp at h
    · rw [full_valuation_ok i h1 h2 h3 h4] at h
      exact ⟨h1, h2, h3, h4, (Except.ok.inj h).symm⟩
  · rintro ⟨h1, h2, h3, h4, rfl⟩
    exact full_valuation_ok i h1 h2 h3 h4

/-! ## Keys, membership and uniqueness of rows -/

/-- The keys of the produced rows, in order, are exactly the 48 scenario keys. -/
theorem valuationRows_map_keyOf (i : ValuationInputs) :
    (valuationRows i).map keyOf = scenarioKeys := rfl

/-- The 48 scenario keys are pairwise distinct. -/
theorem scenarioKeys_nodup : scenarioKeys.Nodup := by decide

/-- Every baseline row belongs to the produced result set. -/
theorem baselineRow_mem (i : ValuationInputs) (p : PayoutScenario)
    (v : VolatilityScenario) : baselineRow i p v ∈ valuationRows i := by
  have hm : (p, v) ∈ PayoutScenario.all.flatMap fun p =>
      VolatilityScenario.all.map fun v => (p, v) := by
    cases p <;> cases v <;> decide
  exact List.mem_append_left _ (List.mem_map.mpr ⟨(p, v), hm, rfl⟩)

/-- Every lifted row belongs to the produced result set. -/
theorem liftedRow_mem (i : ValuationInputs) (l : LiftScenario) (p : PayoutScenario)
    (v : VolatilityScenario) : liftedRow i l p v ∈ valuationRows i := by
  have hm : (l, p, v) ∈ LiftScenario.all.flatMap fun l =>
      PayoutScenario.all.flatMap fun p =>
        VolatilityScenario.all.map fun v => (l, p, v) := by
    cases l <;> cases p <;> cases v <;> decide
  exact List.mem_append_right _ (List.mem_map.mpr ⟨(l, p, v), hm, rfl⟩)

/-- Two produced rows with equal scenario keys are equal. -/
theorem row_eq_of_key_eq (i : ValuationInputs) {r1 r2 : ValuationResult}
    (h1 : r1 ∈ valuationRows i) (h2 : r2 ∈ valuationRows i)
    (hk : keyOf r1 = keyOf r2) : r1 = r2 := by
  have hn : ((valuationRows i).map keyOf).Nodup := by
    rw [valuationRows_map_keyOf]; exact scenarioKeys_nodup
  exact List.inj_on_of_nodup_map hn h1 h2 hk

/-- A produced row keyed like a lifted row is that lifted row. -/
theorem row_eq_liftedRow (i : ValuationInputs) {r : ValuationResult}
    (hr : r ∈ valuationRows i) (l : LiftScenario) (p : PayoutScenario)
    (v : VolatilityScenario) (hk : keyOf r = (p, v, some l)) :
    r = liftedRow i l p v :=
  row_eq_of_key_eq i hr (liftedRow_mem i l p v) hk

/-! ## The seeded min/max folds over `EReal` -/

/-- The min fold never exceeds its accumulator. -/
theorem foldl_min_le_acc :
    ∀ (l : List ℝ) (acc : EReal),
      l.foldl (fun (a : EReal) (x : ℝ) => min a (x : EReal)) acc ≤ acc := by
  intro l
  induction l with
  | nil => intro acc; simp
  | cons y l ih =>
    intro acc
    rw [List.foldl_cons]
    exact le_trans (ih _) (min_le_left _ _)

/-- The min fold is a lower bound of the list elements. -/
theorem foldl_min_le_mem :
    ∀ (l : List ℝ) (acc : EReal) (x : ℝ), x ∈ l →
      l.foldl (fun (a : EReal) (x : ℝ) => min a (x : EReal)) acc ≤ (x : EReal) := by
  intro l
  induction l with
  | nil => intro acc x hx; cases hx
  | cons y l ih =>
    intro acc x hx
    rw [List.foldl_cons]
    rcases List.mem_cons.mp hx with h | h
    · subst h
      exact le_trans (foldl_min_le_acc l _) (min_le_right _ _)
    · exact ih _ x h

/-- The min fold returns its accumulator or some list element. -/
theorem foldl_min_cases :
    ∀ (l : List ℝ) (acc : EReal),
      l.foldl (fun (a : EReal) (x : ℝ) => min a (x : EReal)) acc = acc ∨
        ∃ x ∈ l, l.foldl (fun (a : EReal) (x : ℝ) => min a (x : EReal)) acc = (x : EReal) := by
  intro l
  induction l with
  | nil => intro acc; left; rfl
  | cons y l ih =>
    intro acc
    rw [List.foldl_cons]
    rcases ih (min acc (y : EReal)) with h | ⟨x, hx, h⟩
    · rcases min_cases acc (y : EReal) with ⟨hm, _⟩ | ⟨hm, _⟩
      · left; rw [h, hm]
      · right; exact ⟨y, List.mem_cons_self y l, by rw [h, hm]⟩
    · right; exact ⟨x, List.mem_cons_of_mem y hx, h⟩

/-- On a nonempty list the ⊤-seeded min fold attains a list element. -/
theorem foldl_min_attained (l : List ℝ) (hl : l ≠ []) :
    ∃ x ∈ l, l.foldl (fun (a : EReal) (x : ℝ) => min a (x : EReal)) ⊤ = (x : EReal) := by
  rcases foldl_min_cases l ⊤ with h | h
  · exfalso
    obtain ⟨y, hy⟩ := List.exists_mem_of_ne_nil l hl
    have := foldl_min_le_mem l ⊤ y hy
    rw [h] at this
    exact absurd (lt_of_le_of_lt this (EReal.coe_lt_top y)) (lt_irrefl _)
  · exact h

/-- The max fold never falls below its accumulator. -/
theorem foldl_max_ge_acc :
    ∀ (l : List ℝ) (acc : EReal),
      acc ≤ l.foldl (fun (a : EReal) (x : ℝ) => max a (x : EReal)) acc := by
  intro l
  induction l with
  | nil => intro acc; simp
  | cons y l ih =>
    intro acc
    rw [List.foldl_cons]
    exact le_trans (le_max_left _ _) (ih _)

/-- The max fold is an upper bound of the list elements. -/
theorem foldl_max_ge_mem :
    ∀ (l : List ℝ) (acc : EReal) (x : ℝ), x ∈ l →
      (x : EReal) ≤ l.foldl (fun (a : EReal) (x : ℝ) => max a (x : EReal)) acc := by
  intro l
  induction l with
  | nil => intro acc x hx; cases hx
  | cons y l ih =>
    intro acc x hx
    rw [List.foldl_cons]
    rcases List.mem_cons.mp hx with h | h
    · subst h
      exact le_trans (le_max_right _ _) (foldl_max_ge_acc l _)
    · exact ih _ x h

/-- The max fold returns its accumulator or some list element. -/
theorem foldl_max_cases :
    ∀ (l : List ℝ) (acc : EReal),
      l.foldl (fun (a : EReal) (x : ℝ) => max a (x : EReal)) acc = acc ∨
        ∃ x ∈ l, l.foldl (fun (a : EReal) (x : ℝ) => max a (x : EReal)) acc = (x : EReal) := by
  intro l
  induction l with
  | nil => intro acc; left; rfl
  | cons y l ih =>
    intro acc
    rw [List.foldl_cons]
    rcases ih (max acc (y : EReal)) with h | ⟨x, hx, h⟩
    · rcases max_cases acc (y : EReal) with ⟨hm, _⟩ | ⟨hm, _⟩
      · left; rw [h, hm]
      · right; exact ⟨y, List.mem_cons_self y l, by rw [h, hm]⟩
    · right; exact ⟨x, List.mem_cons_of_mem y hx, h⟩

/-- On a nonempty list the ⊥-seeded max fold attains a list element. -/
theorem foldl_max_attained (l : List ℝ) (hl : l ≠ []) :
    ∃ x ∈ l, l.foldl (fun (a : EReal) (x : ℝ) => max a (x : EReal)) ⊥ = (x : EReal) := by
  rcases foldl_max_cases l ⊥ with h | h
  · exfalso
    obtain ⟨y, hy⟩ := List.exists_mem_of_ne_nil l hl
    have := foldl_max_ge_mem l ⊥ y hy
    rw [h] at this
    exact absurd (lt_of_lt_of_le (EReal.bot_lt_coe y) this) (lt_irrefl _)
  · exact h

/-! ## Concrete input records used by witnesses and counterexamples -/

/-- The default inputs of the repository's test suite. -/
noncomputable def defInputs : ValuationInputs :=
  { raw_forecast := 220000
    risk_free_rate := 0.045
    platform_risk_premium := 0.12
    platform_adjustment_factor := -0.091
    baseline_audience := 1000000
    rpm := 15
    investor_count := 1000
    lift_per_investor := 10 }

/-- The default inputs pass validation and all rates exceed -1, so the run
succeeds with the closed-form report. -/
theorem defInputs_ok : calculate_full_valuation defInputs = .ok (reportOf defInputs) :=
  full_valuation_ok defInputs (by norm_num [defInputs]) (by norm_num [defInputs])
    (by norm_num [defInputs]) (by norm_num [defInputs])

/-! ## Claims -/

/-- C1: for every input on which `calculate_full_valuation` returns Ok, the
returned `all_valuations` list has exactly 48 rows, whose
(payout, volatility, lift-or-none) keys are pairwise distinct and cover every
combination of the 3 payout scenarios, 4 volatility scenarios, and 4 lift states. -/
theorem C1_result_set_complete (i : ValuationInputs) (rd : ReportData)
    (h : calculate_full_valuation i = .ok rd) :
    rd.all_valuations.length = 48 ∧
    (rd.all_valuations.map keyOf).Nodup ∧
    ∀ (p : PayoutScenario) (v : VolatilityScenario) (l : Option LiftScenario),
      (p, v, l) ∈ rd.all_valuations.map keyOf := by
  obtain ⟨-, -, -, -, rfl⟩ := (calc_ok_iff i rd).mp h
  have hkeys : ((reportOf i).all_valuations.map keyOf) = scenarioKeys :=
    valuationRows_map_keyOf i
  refine ⟨rfl, ?_, ?_⟩
  · rw [hkeys]; exact scenarioKeys_nodup
  · intro p v l
    rw [hkeys]
    revert l
    cases p <;> cases v <;> decide

/-- Witness for C1 at the default inputs. -/
theorem C1_result_set_complete_witness :
    (reportOf defInputs).all_valuations.length = 48 ∧
    ((reportOf defInputs).all_valuations.map keyOf).Nodup ∧
    ∀ (p : PayoutScenario) (v : VolatilityScenario) (l : Option LiftScenario),
      (p, v, l) ∈ (reportOf defInputs).all_valuations.map keyOf :=
  C1_result_set_complete defInputs (reportOf defInputs) defInputs_ok

/-- C2: `calculate_present_value` fails (always with a Calculation Error) exactly
when the rate is below -1 or the computed denominator is zero; otherwise it
returns the DCF quotient, and a negative cash flow with a positive denominator
yields a negative present value rather than an error. -/
theorem C2_present_value_domain (cf r t : ℝ) :
    ((∃ m, calculate_present_value cf r t = .error (.CalculationError m)) ↔
      (r < -1 ∨ (1 + r) ^ t = 0)) ∧
    (¬r < -1 → (1 + r) ^ t ≠ 0 →
      calculate_present_value cf r t = .ok (cf / (1 + r) ^ t)) ∧
    (cf < 0 → 0 < (1 + r) ^ t → -1 ≤ r →
      calculate_present_value cf r t = .ok (cf / (1 + r) ^ t) ∧
        cf / (1 + r) ^ t < 0) := by
  have hok : ¬r < -1 → (1 + r) ^ t ≠ 0 →
      calculate_present_value cf r t = .ok (cf / (1 + r) ^ t) := by
    intro h1 h2
    simp only [calculate_present_value, if_neg h1, if_neg h2]
  refine ⟨⟨?_, ?_⟩, hok, ?_⟩
  · rintro ⟨m, hm⟩
    by_cases h1 : r < -1
    · exact Or.inl h1
    by_cases h2 : (1 + r) ^ t = 0
    · exact Or.inr h2
    · rw [hok h1 h2] at hm; simp at hm
  · rintro (h1 | h2)
    · exact ⟨"Discount rate would result in division by zero or negative denominator",
        by simp only [calculate_present_value, if_pos h1]⟩
    · by_cases h1 : r < -1
      · exact ⟨"Discount rate would result in division by zero or negative denominator",
          by simp only [calculate_present_value, if_pos h1]⟩
      · exact ⟨"Present value calculation resulted in division by zero",
          by simp [calculate_present_value, if_neg h1, h2]⟩
  · intro hcf hden hr
    exact ⟨hok (not_lt.mpr (by linarith)) (ne_of_gt hden),
      div_neg_of_neg_of_pos hcf hden⟩

/-- Witness for C2: a negative cash flow at rate 0.1 over one year is valued,
not rejected, and its present value is negative. -/
theorem C2_present_value_domain_witness :
    ((-100000 : ℝ) < 0) ∧ (0 : ℝ) < (1 + (0.1 : ℝ)) ^ (1 : ℝ) ∧ (-1 : ℝ) ≤ 0.1 ∧
    (calculate_present_value (-100000) 0.1 1 =
        .ok ((-100000) / (1 + (0.1 : ℝ)) ^ (1 : ℝ)) ∧
      (-100000 : ℝ) / (1 + (0.1 : ℝ)) ^ (1 : ℝ) < 0) := by
  have hden : (0 : ℝ) < (1 + (0.1 : ℝ)) ^ (1 : ℝ) :=
    Real.rpow_pos_of_pos (by norm_num) 1
  exact ⟨by norm_num, hden, by norm_num,
    (C2_present_value_domain (-100000) 0.1 1).2.2 (by norm_num) hden (by norm_num)⟩

/-- C4: on every successful run the discount-rate components satisfy
`total_rate = risk_free_rate + premium + platform_risk_premium`, a plain sum,
with premiums 0.05, 0.10, 0.20, 0.30 for Low, Typical, High, Extreme. -/
theorem C4_discount_rate_sum (i : ValuationInputs) (rd : ReportData)
    (h : calculate_full_valuation i = .ok rd) :
    (∀ v : VolatilityScenario, (rd.discount_rates v).total_rate =
        i.risk_free_rate + v.premium + i.platform_risk_premium) ∧
    VolatilityScenario.premium .Low = 0.05 ∧
    VolatilityScenario.premium .Typical = 0.10 ∧
    VolatilityScenario.premium .High = 0.20 ∧
    VolatilityScenario.premium .Extreme = 0.30 := by
  obtain ⟨-, -, -, -, rfl⟩ := (calc_ok_iff i rd).mp h
  exact ⟨fun v => rfl, rfl, rfl, rfl, rfl⟩

/-- Witness for C4 at the default inputs. -/
theorem C4_discount_rate_sum_witness :
    (∀ v : VolatilityScenario, ((reportOf defInputs).discount_rates v).total_rate =
        defInputs.risk_free_rate + v.premium + defInputs.platform_risk_premium) ∧
    VolatilityScenario.premium .Low = 0.05 ∧
    VolatilityScenario.premium .Typical = 0.10 ∧
    VolatilityScenario.premium .High = 0.20 ∧
    VolatilityScenario.premium .Extreme = 0.30 :=
  C4_discount_rate_sum defInputs (reportOf defInputs) defInputs_ok

/-- C5: the lift model is total: `additional_audience` is
investor_count * lift_per_investor * activation_factor, with factors 0.5, 1.0, 1.5,
and `quarterly_lift` is additional_audience * (rpm / 1000) * 3. -/
theorem C5_lift_model (l : LiftScenario) (investor_count : ℕ)
    (lift_per_investor rpm : ℝ) :
    l.additional_audience investor_count lift_per_investor =
      (investor_count : ℝ) * lift_per_investor * l.activation_factor ∧
    l.quarterly_lift investor_count lift_per_investor rpm =
      l.additional_audience investor_count lift_per_investor * (rpm / 1000) * 3 ∧
    LiftScenario.activation_factor .Low = 0.5 ∧
    LiftScenario.activation_factor .Medium = 1.0 ∧
    LiftScenario.activation_factor .High = 1.5 :=
  ⟨rfl, rfl, rfl, rfl, rfl⟩

/-- C3: on every successful run, `min_valuation`/`max_valuation` are the
minimum/maximum over all 48 present values, the central estimate is the present
value of the row at (Day90, Typical, Medium lift), and the three sensitivity
impacts equal the stated percentage formulas over the corresponding rows. -/
theorem C3_summary_statistics (i : ValuationInputs) (rd : ReportData)
    (h : calculate_full_valuation i = .ok rd) :
    (∀ row ∈ rd.all_valuations,
        rd.summary.min_valuation ≤ (row.present_value : EReal) ∧
        (row.present_value : EReal) ≤ rd.summary.max_valuation) ∧
    (∃ row ∈ rd.all_valuations,
        rd.summary.min_valuation = (row.present_value : EReal)) ∧
    (∃ row ∈ rd.all_valuations,
        rd.summary.max_valuation = (row.present_value : EReal)) ∧
    (∀ row ∈ rd.all_valuations, keyOf row = (.Day90, .Typical, some .Medium) →
        rd.summary.central_estimate = row.present_value) ∧
    (∀ rL ∈ rd.all_valuations, ∀ rX ∈ rd.all_valuations,
        keyOf rL = (.Day90, .Low, some .Medium) →
        keyOf rX = (.Day90, .Extreme, some .Medium) →
        rd.summary.volatility_impact =
          ((rL.present_value - rX.present_value) / rL.present_value) * 100) ∧
    (∀ rLo ∈ rd.all_valuations, ∀ rHi ∈ rd.all_valuations,
        keyOf rLo = (.Day90, .Typical, some .Low) →
        keyOf rHi = (.Day90, .Typical, some .High) →
        rd.summary.lift_impact =
          ((rHi.present_value - rLo.present_value) / rLo.present_value) * 100) ∧
    (∀ r60 ∈ rd.all_valuations, ∀ r120 ∈ rd.all_valuations,
        keyOf r60 = (.Day60, .Typical, some .Medium) →
        keyOf r120 = (.Day120, .Typical, some .Medium) →
        rd.summary.payout_impact =
          ((r60.present_value - r120.present_value) / r60.present_value) * 100) := by
  obtain ⟨-, -, -, -, rfl⟩ := (calc_ok_iff i rd).mp h
  have hrows : (reportOf i).all_valuations = valuationRows i := rfl
  have hlen : (pvValues i).length = 48 := rfl
  have hne : pvValues i ≠ [] := by
    intro hnil; rw [hnil] at hlen; simp at hlen
  refine ⟨?_, ?_, ?_, ?_, ?_, ?_, ?_⟩
  · intro row hrow
    have hmem : row.present_value ∈ pvValues i :=
      List.mem_map_of_mem (fun v => v.present_value) (hrows ▸ hrow)
    exact ⟨foldl_min_le_mem (pvValues i) ⊤ _ hmem, foldl_max_ge_mem (pvValues i) ⊥ _ hmem⟩
  · obtain ⟨x, hx, hfx⟩ := foldl_min_attained (pvValues i) hne
    obtain ⟨row, hrow, hrx⟩ := List.mem_map.mp hx
    exact ⟨row, hrows ▸ hrow, by rw [← hrx] at hfx; exact hfx⟩
  · obtain ⟨x, hx, hfx⟩ := foldl_max_attained (pvValues i) hne
    obtain ⟨row, hrow, hrx⟩ := List.mem_map.mp hx
    exact ⟨row, hrows ▸ hrow, by rw [← hrx] at hfx; exact hfx⟩
  · intro row hrow hk
    rw [row_eq_liftedRow i (hrows ▸ hrow) .Medium .Day90 .Typical hk]
    rfl
  · intro rL hL rX hX hkL hkX
    rw [row_eq_liftedRow i (hrows ▸ hL) .Medium .Day90 .Low hkL,
      row_eq_liftedRow i (hrows ▸ hX) .Medium .Day90 .Extreme hkX]
    rfl
  · intro rLo hLo rHi hHi hkLo hkHi
    rw [row_eq_liftedRow i (hrows ▸ hLo) .Low .Day90 .Typical hkLo,
      row_eq_liftedRow i (hrows ▸ hHi) .High .Day90 .Typical hkHi]
    rfl
  · intro r60 h60 r120 h120 hk60 hk120
    rw [row_eq_liftedRow i (hrows ▸ h60) .Medium .Day60 .Typical hk60,
      row_eq_liftedRow i (hrows ▸ h120) .Medium .Day120 .Typical hk120]
    rfl

/-- Witness for C3 at the default inputs. -/
theorem C3_summary_statistics_witness :
    (∀ row ∈ (reportOf defInputs).all_valuations,
        (reportOf defInputs).summary.min_valuation ≤ (row.present_value : EReal) ∧
        (row.present_value : EReal) ≤ (reportOf defInputs).summary.max_valuation) ∧
    (∃ row ∈ (reportOf defInputs).all_valuations,
        (reportOf defInputs).summary.min_valuation = (row.present_value : EReal)) ∧
    (∃ row ∈ (reportOf defInputs).all_valuations,
        (reportOf defInputs).summary.max_valuation = (row.present_value : EReal)) ∧
    (∀ row ∈ (reportOf defInputs).all_valuations,
        keyOf row = (.Day90, .Typical, some .Medium) →
        (reportOf defInputs).summary.central_estimate = row.present_value) ∧
    (∀ rL ∈ (reportOf defInputs).all_valuations,
      ∀ rX ∈ (reportOf defInputs).all_valuations,
        keyOf rL = (.Day90, .Low, some .Medium) →
        keyOf rX = (.Day90, .Extreme, some .Medium) →
        (reportOf defInputs).summary.volatility_impact =
          ((rL.present_value - rX.present_value) / rL.present_value) * 100) ∧
    (∀ rLo ∈ (reportOf defInputs).all_valuations,
      ∀ rHi ∈ (reportOf defInputs).all_valuations,
        keyOf rLo = (.Day90, .Typical, some .Low) →
        keyOf rHi = (.Day90, .Typical, some .High) →
        (reportOf defInputs).summary.lift_impact =
          ((rHi.present_value - rLo.present_value) / rLo.present_value) * 100) ∧
    (∀ r60 ∈ (reportOf defInputs).all_valuations,
      ∀ r120 ∈ (reportOf defInputs).all_valuations,
        keyOf r60 = (.Day60, .Typical, some .Medium) →
        keyOf r120 = (.Day120, .Typical, some .Medium) →
        (reportOf defInputs).summary.payout_impact =
          ((r60.present_value - r120.present_value) / r60.present_value) * 100) :=
  C3_summary_statistics defInputs (reportOf defInputs) defInputs_ok

/-- Inputs whose platform adjustment factor is below -1: validation still passes
and the (negative) adjusted baseline is still computed. -/
noncomputable def negAdjInputs : ValuationInputs :=
  { raw_forecast := 1000
    risk_free_rate := 0.045
    platform_risk_premium := 0.12
    platform_adjustment_factor := -2
    baseline_audience := 1000
    rpm := 15
    investor_count := 100
    lift_per_investor := 10 }

/-- The negative-adjustment inputs still produce a successful run. -/
theorem negAdjInputs_ok :
    calculate_full_valuation negAdjInputs = .ok (reportOf negAdjInputs) :=
  full_valuation_ok negAdjInputs (by norm_num [negAdjInputs])
    (by norm_num [negAdjInputs]) (by norm_num [negAdjInputs])
    (by norm_num [negAdjInputs])

/-- C6: the run fails with an Invalid Input error exactly when raw_forecast ≤ 0,
baseline_audience ≤ 0 or rpm ≤ 0, with the error naming the offending field;
the platform adjustment factor is never validated and the adjusted baseline
raw_forecast * (1 + platform_adjustment_factor) is still computed. -/
theorem C6_input_validation (i : ValuationInputs) :
    ((∃ m, calculate_full_valuation i = .error (.InvalidInput m)) ↔
      (i.raw_forecast ≤ 0 ∨ i.baseline_audience ≤ 0 ∨ i.rpm ≤ 0)) ∧
    (i.raw_forecast ≤ 0 →
      calculate_full_valuation i =
        .error (.InvalidInput "Raw forecast must be positive")) ∧
    (0 < i.raw_forecast → i.baseline_audience ≤ 0 →
      calculate_full_valuation i =
        .error (.InvalidInput "Baseline audience must be positive")) ∧
    (0 < i.raw_forecast → 0 < i.baseline_audience → i.rpm ≤ 0 →
      calculate_full_valuation i = .error (.InvalidInput "RPM must be positive")) ∧
    (∀ rd, calculate_full_valuation i = .ok rd →
      rd.summary.adjusted_baseline =
        i.raw_forecast * (1 + i.platform_adjustment_factor)) := by
  refine ⟨⟨?_, ?_⟩, full_valuation_invalid_raw i, full_valuation_invalid_audience i,
    full_valuation_invalid_rpm i, ?_⟩
  · rintro ⟨m, hm⟩
    by_contra hno
    push_neg at hno
    obtain ⟨h1, h2, h3⟩ := hno
    rcases le_or_lt (i.risk_free_rate + 0.05 + i.platform_risk_premium) (-1) with h4 | h4
    · obtain ⟨m', hm'⟩ := full_valuation_error_of_rate_le i h1 h2 h3 h4
      rw [hm'] at hm
      simp at hm
    · rw [full_valuation_ok i h1 h2 h3 h4] at hm
      simp at hm
  · rintro (h | h | h)
    · exact ⟨"Raw forecast must be positive", full_valuation_invalid_raw i h⟩
    · rcases le_or_lt i.raw_forecast 0 with h1 | h1
      · exact ⟨"Raw forecast must be positive", full_valuation_invalid_raw i h1⟩
      · exact ⟨"Baseline audience must be positive",
          full_valuation_invalid_audience i h1 h⟩
    · rcases le_or_lt i.raw_forecast 0 with h1 | h1
      · exact ⟨"Raw forecast must be positive", full_valuation_invalid_raw i h1⟩
      rcases le_or_lt i.baseline_audience 0 with h2 | h2
      · exact ⟨"Baseline audience must be positive",
          full_valuation_invalid_audience i h1 h2⟩
      · exact ⟨"RPM must be positive", full_valuation_invalid_rpm i h1 h2 h⟩
  · intro rd h
    obtain ⟨-, -, -, -, rfl⟩ := (calc_ok_iff i rd).mp h
    rfl

/-- Witness for C6: each offending field yields its named error, and a platform
adjustment factor of -2 (≤ -1) is not validated: the run succeeds and the
negative adjusted baseline is still computed. -/
theorem C6_input_validation_witness :
    calculate_full_valuation { negAdjInputs with raw_forecast := -5 } =
      .error (.InvalidInput "Raw forecast must be positive") ∧
    calculate_full_valuation { negAdjInputs with baseline_audience := 0 } =
      .error (.InvalidInput "Baseline audience must be positive") ∧
    calculate_full_valuation { negAdjInputs with rpm := -1 } =
      .error (.InvalidInput "RPM must be positive") ∧
    negAdjInputs.platform_adjustment_factor ≤ -1 ∧
    (reportOf negAdjInputs).summary.adjusted_baseline =
      negAdjInputs.raw_forecast * (1 + negAdjInputs.platform_adjustment_factor) := by
  refine ⟨(C6_input_validation _).2.1 (by norm_num [negAdjInputs]),
    (C6_input_validation _).2.2.1 (by norm_num [negAdjInputs]) (by norm_num [negAdjInputs]),
    (C6_input_validation _).2.2.2.1 (by norm_num [negAdjInputs])
      (by norm_num [negAdjInputs]) (by norm_num [negAdjInputs]),
    by norm_num [negAdjInputs],
    (C6_input_validation negAdjInputs).2.2.2.2 (reportOf negAdjInputs) negAdjInputs_ok⟩

/-- Counterexample to C7 as stated: with a negative cash flow of -100000 at
rate 0.1, the present value at time 0 is strictly below the present value at
time 1, so PV is not non-increasing in time for every fixed cash flow. -/
theorem C7_counterexample :
    (0 : ℝ) ≤ 0.1 ∧ (0 : ℝ) ≤ 1 ∧
    calculate_present_value (-100000) 0.1 0 =
      .ok ((-100000) / (1 + (0.1 : ℝ)) ^ (0 : ℝ)) ∧
    calculate_present_value (-100000) 0.1 1 =
      .ok ((-100000) / (1 + (0.1 : ℝ)) ^ (1 : ℝ)) ∧
    ¬((-100000 : ℝ) / (1 + (0.1 : ℝ)) ^ (1 : ℝ) ≤
        (-100000 : ℝ) / (1 + (0.1 : ℝ)) ^ (0 : ℝ)) := by
  refine ⟨by norm_num, by norm_num,
    pv_of_rate_gt (-100000) 0.1 0 (by norm_num),
    pv_of_rate_gt (-100000) 0.1 1 (by norm_num), ?_⟩
  rw [Real.rpow_zero, Real.rpow_one]
  norm_num

/-- C7 amended: for every fixed NON-NEGATIVE cash flow and non-negative discount
rate, the present value returned by `calculate_present_value` is monotonically
non-increasing in time_years. -/
theorem C7_pv_time_antitone (cf r t1 t2 v1 v2 : ℝ) (hcf : 0 ≤ cf) (hr : 0 ≤ r)
    (ht : t1 ≤ t2) (h1 : calculate_present_value cf r t1 = .ok v1)
    (h2 : calculate_present_value cf r t2 = .ok v2) : v2 ≤ v1 := by
  rw [pv_ok_inv _ _ _ _ h1, pv_ok_inv _ _ _ _ h2]
  have hb : (1 : ℝ) ≤ 1 + r := by linarith
  have hpos1 : (0 : ℝ) < (1 + r) ^ t1 := Real.rpow_pos_of_pos (by linarith) t1
  have hle : (1 + r) ^ t1 ≤ (1 + r) ^ t2 := Real.rpow_le_rpow_of_exponent_le hb ht
  gcongr

/-- Witness for the amended C7 at cash flow 100000, rate 0.1, times 0 and 1. -/
theorem C7_pv_time_antitone_witness :
    (0 : ℝ) ≤ 100000 ∧ (0 : ℝ) ≤ 0.1 ∧ (0 : ℝ) ≤ 1 ∧
    (100000 : ℝ) / (1 + (0.1 : ℝ)) ^ (1 : ℝ) ≤
      (100000 : ℝ) / (1 + (0.1 : ℝ)) ^ (0 : ℝ) :=
  ⟨by norm_num, by norm_num, by norm_num,
    C7_pv_time_antitone 100000 0.1 0 1 _ _ (by norm_num) (by norm_num) (by norm_num)
      (pv_of_rate_gt 100000 0.1 0 (by norm_num))
      (pv_of_rate_gt 100000 0.1 1 (by norm_num))⟩

/-- Inputs with a negative lift-per-investor, on which a higher activation
factor strictly lowers the lifted present value. -/
noncomputable def negLiftInputs : ValuationInputs :=
  { raw_forecast := 1000
    risk_free_rate := 0
    platform_risk_premium := 0
    platform_adjustment_factor := 0
    baseline_audience := 1
    rpm := 1000
    investor_count := 1
    lift_per_investor := -100 }

/-- The negative-lift inputs still produce a successful run. -/
theorem negLiftInputs_ok :
    calculate_full_valuation negLiftInputs = .ok (reportOf negLiftInputs) :=
  full_valuation_ok negLiftInputs (by norm_num [negLiftInputs])
    (by norm_num [negLiftInputs]) (by norm_num [negLiftInputs])
    (by norm_num [negLiftInputs])

/-- Counterexample to C8 as stated: on a successful run with negative
lift_per_investor, the High-lift row (activation 1.5) has a strictly SMALLER
present value than the Low-lift row (activation 0.5) at the same payout and
volatility. -/
theorem C8_counterexample :
    calculate_full_valuation negLiftInputs = .ok (reportOf negLiftInputs) ∧
    LiftScenario.activation_factor .Low ≤ LiftScenario.activation_factor .High ∧
    liftedRow negLiftInputs .Low .Day60 .Low ∈ (reportOf negLiftInputs).all_valuations ∧
    liftedRow negLiftInputs .High .Day60 .Low ∈ (reportOf negLiftInputs).all_valuations ∧
    (liftedRow negLiftInputs .High .Day60 .Low).present_value <
      (liftedRow negLiftInputs .Low .Day60 .Low).present_value := by
  refine ⟨negLiftInputs_ok, by norm_num [LiftScenario.activation_factor],
    liftedRow_mem negLiftInputs .Low .Day60 .Low,
    liftedRow_mem negLiftInputs .High .Day60 .Low, ?_⟩
  have hD : (0 : ℝ) <
      (1 + (calculate_discount_rate negLiftInputs .Low).total_rate) ^
        PayoutScenario.years .Day60 :=
    Real.rpow_pos_of_pos
      (by norm_num [calculate_discount_rate, DiscountRateComponents.total_rate,
        VolatilityScenario.premium, negLiftInputs]) _
  show (calculate_adjusted_baseline _ _ + _) / _ < (calculate_adjusted_baseline _ _ + _) / _
  rw [div_lt_div_iff_of_pos_right hD]
  norm_num [calculate_adjusted_baseline, LiftScenario.quarterly_lift,
    LiftScenario.additional_audience, LiftScenario.activation_factor, negLiftInputs]

/-- C8 amended: on a successful run whose lift_per_investor is NON-NEGATIVE,
holding payout and volatility fixed, a lift scenario with a higher activation
factor yields a higher or equal lifted present value. -/
theorem C8_lift_monotone (i : ValuationInputs) (rd : ReportData)
    (h : calculate_full_valuation i = .ok rd) (hlpi : 0 ≤ i.lift_per_investor)
    (l1 l2 : LiftScenario) (p : PayoutScenario) (v : VolatilityScenario)
    (hf : l1.activation_factor ≤ l2.activation_factor) :
    liftedRow i l1 p v ∈ rd.all_valuations ∧
    liftedRow i l2 p v ∈ rd.all_valuations ∧
    (liftedRow i l1 p v).present_value ≤ (liftedRow i l2 p v).present_value := by
  obtain ⟨-, -, h3, h4, rfl⟩ := (calc_ok_iff i rd).mp h
  refine ⟨liftedRow_mem i l1 p v, liftedRow_mem i l2 p v, ?_⟩
  have hD : (0 : ℝ) <
      (1 + (calculate_discount_rate i v).total_rate) ^ PayoutScenario.years p :=
    Real.rpow_pos_of_pos (by have := rate_gt_neg_one i v h4; linarith) _
  have hq : l1.quarterly_lift i.investor_count i.lift_per_investor i.rpm ≤
      l2.quarterly_lift i.investor_count i.lift_per_investor i.rpm := by
    unfold LiftScenario.quarterly_lift LiftScenario.additional_audience
    have hc : (0 : ℝ) ≤ (i.investor_count : ℝ) * i.lift_per_investor :=
      mul_nonneg (Nat.cast_nonneg _) hlpi
    have hstep : (i.investor_count : ℝ) * i.lift_per_investor * l1.activation_factor ≤
        (i.investor_count : ℝ) * i.lift_per_investor * l2.activation_factor :=
      mul_le_mul_of_nonneg_left hf hc
    have hrpm : (0 : ℝ) ≤ i.rpm / 1000 := by positivity
    have := mul_le_mul_of_nonneg_right hstep hrpm
    nlinarith
  show (calculate_adjusted_baseline _ _ + _) / _ ≤ (calculate_adjusted_baseline _ _ + _) / _
  rw [div_le_div_iff_of_pos_right hD]
  linarith

/-- Witness for the amended C8 at the default inputs. -/
theorem C8_lift_monotone_witness :
    (0 : ℝ) ≤ defInputs.lift_per_investor ∧
    LiftScenario.activation_factor .Low ≤ LiftScenario.activation_factor .High ∧
    liftedRow defInputs .Low .Day90 .Typical ∈ (reportOf defInputs).all_valuations ∧
    liftedRow defInputs .High .Day90 .Typical ∈ (reportOf defInputs).all_valuations ∧
    (liftedRow defInputs .Low .Day90 .Typical).present_value ≤
      (liftedRow defInputs .High .Day90 .Typical).present_value :=
  ⟨by norm_num [defInputs], by norm_num [LiftScenario.activation_factor],
    (C8_lift_monotone defInputs (reportOf defInputs) defInputs_ok
      (by norm_num [defInputs]) .Low .High .Day90 .Typical
      (by norm_num [LiftScenario.activation_factor])).1,
    (C8_lift_monotone defInputs (reportOf defInputs) defInputs_ok
      (by norm_num [defInputs]) .Low .High .Day90 .Typical
      (by norm_num [LiftScenario.activation_factor])).2.1,
    (C8_lift_monotone defInputs (reportOf defInputs) defInputs_ok
      (by norm_num [defInputs]) .Low .High .Day90 .Typical
      (by norm_num [LiftScenario.activation_factor])).2.2⟩

/-- C9: for validated inputs the run succeeds if and only if
risk_free_rate + platform_risk_premium + 0.05 exceeds -1 (the smallest of the
four total rates above -1); in that case the run returns the closed-form report
and the fixed-key summary derivation succeeds, so the defensive missing-row
error branch is unreachable. -/
theorem C9_ok_iff_min_rate (i : ValuationInputs)
    (h1 : 0 < i.raw_forecast) (h2 : 0 < i.baseline_audience) (h3 : 0 < i.rpm) :
    ((∃ rd, calculate_full_valuation i = .ok rd) ↔
      -1 < i.risk_free_rate + i.platform_risk_premium + 0.05) ∧
    (-1 < i.risk_free_rate + i.platform_risk_premium + 0.05 →
      calculate_full_valuation i = .ok (reportOf i) ∧
      calculate_summary_statistics (valuationRows i)
          (calculate_adjusted_baseline i.raw_forecast i.platform_adjustment_factor) =
        .ok (summaryOf i)) := by
  constructor
  · constructor
    · rintro ⟨rd, hrd⟩
      obtain ⟨-, -, -, h4, -⟩ := (calc_ok_iff i rd).mp hrd
      linarith
    · intro h4
      exact ⟨reportOf i, full_valuation_ok i h1 h2 h3 (by linarith)⟩
  · intro h4
    exact ⟨full_valuation_ok i h1 h2 h3 (by linarith), summary_stats_rows i⟩

/-- Witness for C9 at the default inputs. -/
theorem C9_ok_iff_min_rate_witness :
    ((∃ rd, calculate_full_valuation defInputs = .ok rd) ↔
      -1 < defInputs.risk_free_rate + defInputs.platform_risk_premium + 0.05) ∧
    (-1 < defInputs.risk_free_rate + defInputs.platform_risk_premium + 0.05 →
      calculate_full_valuation defInputs = .ok (reportOf defInputs) ∧
      calculate_summary_statistics (valuationRows defInputs)
          (calculate_adjusted_baseline defInputs.raw_forecast
            defInputs.platform_adjustment_factor) =
        .ok (summaryOf defInputs)) :=
  C9_ok_iff_min_rate defInputs (by norm_num [defInputs]) (by norm_num [defInputs])
    (by norm_num [defInputs])

/-- C10: on every successful run the rows appear in the fixed deterministic
order given by `scenarioKeys` (12 baseline rows first, then the Low, Medium,
High lift blocks, each payout-major Day60, Day90, Day120 with inner volatility
order Low, Typical, High, Extreme), and equal inputs give identical results. -/
theorem C10_row_order (i : ValuationInputs) (rd : ReportData)
    (h : calculate_full_valuation i = .ok rd) :
    rd.all_valuations.map keyOf = scenarioKeys ∧
    (∀ (j : ValuationInputs) (rd2 : ReportData), j = i →
      calculate_full_valuation j = .ok rd2 → rd2 = rd) := by
  obtain ⟨-, -, -, -, rfl⟩ := (calc_ok_iff i rd).mp h
  refine ⟨valuationRows_map_keyOf i, ?_⟩
  rintro j rd2 rfl h2
  obtain ⟨-, -, -, -, rfl⟩ := (calc_ok_iff j rd2).mp h2
  rfl

/-- Witness for C10 at the default inputs. -/
theorem C10_row_order_witness :
    (reportOf defInputs).all_valuations.map keyOf = scenarioKeys ∧
    (∀ (j : ValuationInputs) (rd2 : ReportData), j = defInputs →
      calculate_full_valuation j = .ok rd2 → rd2 = reportOf defInputs) :=
  C10_row_order defInputs (reportOf defInputs) defInputs_ok

end TokVal
